import Mathlib

/-!
Shallow embedding of the AnonymBot matching/state engine (`main.go`).

User identities are Telegram chat ids (`int64` in Go), modelled as `Int`;
the sentinel partner value `0` means "no partner", exactly as in the source.
The Go map `users map[int64]*UserState` is modelled as a total function
`Int → UserState` whose default is the zero value `UserState` that the Go
dispatch loop inserts on first contact, so `getOrCreate` is implicit.
Outbound Telegram messages are collected as a list of `(recipient, Msg)`
events instead of being sent.
-/

namespace AnonymBot

/-- Embedding of `UserGender` (main.go): the two declared categories. The
Go value is a string that is only ever `""`, `"male"` or `"female"`; the
unset string is modelled as `none` of `Option Gender`. -/
inductive Gender
  | male
  | female
deriving DecidableEq, Repr

/-- Embedding of `UserState` (main.go): per-user mutable state. `partner = 0` means no
partner, mirroring the Go comment `Chat partner ID, 0 if none`. -/
structure UserState where
  gender : Option Gender
  partner : Int
  waiting : Bool
deriving DecidableEq, Repr

/-- The Go zero value `&UserState{}` inserted on first contact. -/
def UserState.fresh : UserState := ⟨none, 0, false⟩

/-- The mutable fields of `Bot` (main.go): the user registry and the two
category queues. -/
structure BotState where
  users : Int → UserState
  maleQueue : List Int
  femaleQueue : List Int

/-- Initial bot state: empty registry (all users at the zero value), both
queues empty, as built by `NewBot`. -/
def initState : BotState := ⟨fun _ => UserState.fresh, [], []⟩

/-- The distinct outbound messages the bot sends (`sendMessage` call sites
in main.go), plus `text` for a verbatim relayed message. -/
inductive Msg
  | genderChosen (g : Gender)
  | noGender        -- "Сначала выбери пол через /start."
  | alreadyInChat   -- "Ты уже в чате! Используй /stop или /next."
  | searching       -- "🔎 Ищем твою искру..."
  | matched         -- "✨ Партнёр найден!..."
  | notInChat       -- "Ты не в чате. Начни с /start!" (stopChat)
  | chatEnded       -- "🛑 Чат завершён..." (to the initiator)
  | partnerLeft     -- "🛑 Партнёр завершил чат..." (to the partner)
  | notInChatRelay  -- "Ты не в чате. Жми /start..." (forwardMessage)
  | text (t : String)
deriving DecidableEq, Repr

/-- Point update of the registry: the effect of a single Go field write
through the `*UserState` pointer at key `id`. -/
def setUser (us : Int → UserState) (id : Int) (f : UserState → UserState) :
    Int → UserState :=
  fun k => if k = id then f (us k) else us k

/-- One iteration body of the `matchUsers` loop acting on the registry:
the four pointer writes `maleState.Partner = femaleID`,
`femaleState.Partner = maleID`, `maleState.Waiting = false`,
`femaleState.Waiting = false`, in source order (faithful even when the two
pointers alias). No already-paired check is performed, as in the source. -/
def pairUp (us : Int → UserState) (maleID femaleID : Int) :
    Int → UserState :=
  let us1 := setUser us maleID (fun st => { st with partner := femaleID })
  let us2 := setUser us1 femaleID (fun st => { st with partner := maleID })
  let us3 := setUser us2 maleID (fun st => { st with waiting := false })
  setUser us3 femaleID (fun st => { st with waiting := false })

/-- The `for len(maleQueue) > 0 && len(femaleQueue) > 0` loop of
`matchUsers`: repeatedly pop both heads, pair them, emit the two "matched"
messages. Returns the final registry, the leftover queues, and the
messages in send order. -/
def matchLoop : (Int → UserState) → List Int → List Int →
    (Int → UserState) × List Int × List Int × List (Int × Msg)
  | us, maleID :: mt, femaleID :: ft =>
    let r := matchLoop (pairUp us maleID femaleID) mt ft
    (r.1, r.2.1, r.2.2.1,
      (maleID, Msg.matched) :: (femaleID, Msg.matched) :: r.2.2.2)
  | us, m, f => (us, m, f, [])

/-- Embedding of `matchUsers` (main.go): run the pairing loop over the bot state. -/
def matchUsers (b : BotState) : BotState × List (Int × Msg) :=
  let r := matchLoop b.users b.maleQueue b.femaleQueue
  (⟨r.1, r.2.1, r.2.2.1⟩, r.2.2.2)

/-- Embedding of `setGender` (main.go): set the caller's gender, send the confirmation
message with the "start chat" button. No guards, no other mutation. -/
def setGender (b : BotState) (userID : Int) (gender : Gender) :
    BotState × List (Int × Msg) :=
  let us := setUser b.users userID (fun st => { st with gender := some gender })
  ({ b with users := us }, [(userID, Msg.genderChosen gender)])

/-- The success-path mutation of `startChat` before `matchUsers` runs:
`state.Waiting = true` and the append of `userID` to the tail of the
caller's category queue (`maleQueue` when `Gender == Male`, otherwise
`femaleQueue`). -/
def enqueueSelf (b : BotState) (userID : Int) : BotState :=
  let us := setUser b.users userID (fun s => { s with waiting := true })
  if (b.users userID).gender = some Gender.male then
    { users := us, maleQueue := b.maleQueue ++ [userID],
      femaleQueue := b.femaleQueue }
  else
    { users := us, maleQueue := b.maleQueue,
      femaleQueue := b.femaleQueue ++ [userID] }

/-- Embedding of `startChat` (main.go): fail if gender unset, fail if already in a chat
(`Partner != 0`), otherwise set `Waiting`, append to the caller's category
queue, send "searching", and run `matchUsers`. Note: no check that the
caller is already waiting or already enqueued. -/
def startChat (b : BotState) (userID : Int) : BotState × List (Int × Msg) :=
  let st := b.users userID
  if st.gender = none then (b, [(userID, Msg.noGender)])
  else if st.partner ≠ 0 then (b, [(userID, Msg.alreadyInChat)])
  else
    let r := matchUsers (enqueueSelf b userID)
    (r.1, (userID, Msg.searching) :: r.2)

/-- Embedding of `removeFromQueue` (main.go): delete the first occurrence of `userID`
from the male queue and return if found, otherwise delete the first
occurrence from the female queue; no-op when absent. -/
def removeFromQueue (b : BotState) (userID : Int) : BotState :=
  if userID ∈ b.maleQueue then
    { b with maleQueue := b.maleQueue.erase userID }
  else
    { b with femaleQueue := b.femaleQueue.erase userID }

/-- The two pointer writes `state.Partner = 0` and
`partnerState.Partner = 0` of `stopChat`, in source order (faithful even
when the two pointers alias). -/
def clearPair (b : BotState) (userID : Int) : BotState :=
  let us1 := setUser b.users userID (fun s => { s with partner := 0 })
  let us2 := setUser us1 (b.users userID).partner
    (fun s => { s with partner := 0 })
  { b with users := us2 }

/-- Embedding of `stopChat` (main.go): fail with "not in chat" if `Partner == 0`;
otherwise clear both partner fields, remove both users from the queues,
and notify both sides with distinct texts. -/
def stopChat (b : BotState) (userID : Int) : BotState × List (Int × Msg) :=
  let st := b.users userID
  if st.partner = 0 then (b, [(userID, Msg.notInChat)])
  else
    let partnerID := st.partner
    let b3 := removeFromQueue (removeFromQueue (clearPair b userID) userID)
      partnerID
    (b3, [(userID, Msg.chatEnded), (partnerID, Msg.partnerLeft)])

/-- Embedding of `nextPartner` (main.go): `stopChat` then `startChat`, messages of both
in order. -/
def nextPartner (b : BotState) (userID : Int) : BotState × List (Int × Msg) :=
  let r1 := stopChat b userID
  let r2 := startChat r1.1 userID
  (r2.1, r1.2 ++ r2.2)

/-- Embedding of `forwardMessage` (main.go): read the sender's partner; if non-zero,
send the text verbatim to the partner, otherwise tell the sender they are
not in a chat. No state mutation. -/
def forwardMessage (b : BotState) (userID : Int) (t : String) :
    BotState × List (Int × Msg) :=
  let partnerID := (b.users userID).partner
  if partnerID ≠ 0 then (b, [(partnerID, Msg.text t)])
  else (b, [(userID, Msg.notInChatRelay)])

/-- The entry points of the session controller, as dispatched by `Run` and
`handleCallback` in main.go. -/
inductive Event
  | declareCategory (userID : Int) (g : Gender)
  | startSearch (userID : Int)
  | endSession (userID : Int)
  | next (userID : Int)
  | relay (userID : Int) (t : String)
  | tryMatchAll
deriving DecidableEq, Repr

/-- One inbound event processed by the bot. -/
def step (b : BotState) : Event → BotState × List (Int × Msg)
  | .declareCategory userID g => setGender b userID g
  | .startSearch userID => startChat b userID
  | .endSession userID => stopChat b userID
  | .next userID => nextPartner b userID
  | .relay userID t => forwardMessage b userID t
  | .tryMatchAll => matchUsers b

/-- States reachable from the initial state by any event sequence. -/
inductive Reachable : BotState → Prop
  | base : Reachable initState
  | more {s : BotState} (e : Event) : Reachable s → Reachable (step s e).1

/-- Run a whole event list (discarding the outbound messages). -/
def runEvents (b : BotState) : List Event → BotState
  | [] => b
  | e :: es => runEvents (step b e).1 es

/-- Event trace whose final state violates partner symmetry: user 1 is
enqueued twice (there is no already-waiting guard in `startChat`), matched
first with 2, then re-matched with 3 while 2 still points at 1. -/
def c1Trace : List Event :=
  [Event.declareCategory 1 Gender.male, Event.startSearch 1,
   Event.startSearch 1, Event.declareCategory 2 Gender.female,
   Event.startSearch 2, Event.declareCategory 3 Gender.female,
   Event.startSearch 3]

/-- Event trace after which user 1 appears twice in the male queue. -/
def c2Trace : List Event :=
  [Event.declareCategory 1 Gender.male, Event.startSearch 1,
   Event.startSearch 1]

/-- Call state of `matchUsers` arising inside `startSearch 3` on
`c1Trace`: user 1 is still queued but already paired with 2, and user 3
has just been enqueued. -/
def c3State : BotState :=
  { users := fun k =>
      if k = 1 then ⟨some Gender.male, 2, false⟩
      else if k = 2 then ⟨some Gender.female, 1, false⟩
      else if k = 3 then ⟨some Gender.female, 0, true⟩
      else UserState.fresh,
    maleQueue := [1], femaleQueue := [3] }

/-- Reachable state with user 1 waiting alone in the male queue. -/
def waitState : BotState :=
  runEvents initState
    [Event.declareCategory 1 Gender.male, Event.startSearch 1]

/-- Reachable state in which users 1 and 2 are paired with each other. -/
def pairState : BotState :=
  runEvents initState
    [Event.declareCategory 1 Gender.male, Event.startSearch 1,
     Event.declareCategory 2 Gender.female, Event.startSearch 2]

/-- Reachable state with male queue `[1, 2, 3]` (all three waiting) and
user 4 declared female but not yet searching. -/
def fifoState : BotState :=
  runEvents initState
    [Event.declareCategory 1 Gender.male, Event.startSearch 1,
     Event.declareCategory 2 Gender.male, Event.startSearch 2,
     Event.declareCategory 3 Gender.male, Event.startSearch 3,
     Event.declareCategory 4 Gender.female]

theorem reachable_runEvents (es : List Event) :
    ∀ b : BotState, Reachable b → Reachable (runEvents b es) := by
  induction es with
  | nil => intro b hb; exact hb
  | cons e es ih => intro b hb; exact ih _ (Reachable.more e hb)

/-! ### Pointwise description of one pairing step -/

theorem pairUp_other {us : Int → UserState} {a b k : Int}
    (hka : k ≠ a) (hkb : k ≠ b) : pairUp us a b k = us k := by
  simp [pairUp, setUser, hka, hkb]

theorem pairUp_gender (us : Int → UserState) (a b k : Int) :
    (pairUp us a b k).gender = (us k).gender := by
  simp only [pairUp, setUser]
  split_ifs <;> rfl

theorem pairUp_left {us : Int → UserState} {a b : Int} :
    (pairUp us a b a).waiting = false ∧ (pairUp us a b a).partner = b := by
  by_cases hab : a = b
  · subst hab; simp [pairUp, setUser]
  · simp [pairUp, setUser, hab, Ne.symm hab]

theorem pairUp_right {us : Int → UserState} {a b : Int} :
    (pairUp us a b b).waiting = false ∧ (pairUp us a b b).partner = a := by
  by_cases hab : a = b
  · subst hab; simp [pairUp, setUser]
  · simp [pairUp, setUser, Ne.symm hab]

/-! ### The state invariant that does hold -/

/-- Invariant maintained by every operation: a waiting user has no
partner; everyone enqueued has a declared gender; everyone with a partner
has a declared gender. -/
def Inv (b : BotState) : Prop :=
  (∀ u : Int, (b.users u).waiting = true → (b.users u).partner = 0) ∧
  (∀ u ∈ b.maleQueue, (b.users u).gender ≠ none) ∧
  (∀ u ∈ b.femaleQueue, (b.users u).gender ≠ none) ∧
  (∀ u : Int, (b.users u).partner ≠ 0 → (b.users u).gender ≠ none)

theorem matchLoop_nil_left (us : Int → UserState) (f : List Int) :
    matchLoop us [] f = (us, [], f, []) := by
  cases f <;> rfl

theorem matchLoop_nil_right (us : Int → UserState) (m : List Int) :
    matchLoop us m [] = (us, m, [], []) := by
  cases m <;> rfl

theorem matchLoop_cons (us : Int → UserState) (a b : Int)
    (mt ft : List Int) :
    matchLoop us (a :: mt) (b :: ft) =
      ((matchLoop (pairUp us a b) mt ft).1,
       (matchLoop (pairUp us a b) mt ft).2.1,
       (matchLoop (pairUp us a b) mt ft).2.2.1,
       (a, Msg.matched) :: (b, Msg.matched) ::
         (matchLoop (pairUp us a b) mt ft).2.2.2) := rfl

theorem matchLoop_inv :
    ∀ (m f : List Int) (us : Int → UserState),
    (∀ u : Int, (us u).waiting = true → (us u).partner = 0) →
    (∀ u ∈ m, (us u).gender ≠ none) →
    (∀ u ∈ f, (us u).gender ≠ none) →
    (∀ u : Int, (us u).partner ≠ 0 → (us u).gender ≠ none) →
    (∀ u : Int, ((matchLoop us m f).1 u).waiting = true →
      ((matchLoop us m f).1 u).partner = 0) ∧
    (∀ u ∈ (matchLoop us m f).2.1, ((matchLoop us m f).1 u).gender ≠ none) ∧
    (∀ u ∈ (matchLoop us m f).2.2.1,
      ((matchLoop us m f).1 u).gender ≠ none) ∧
    (∀ u : Int, ((matchLoop us m f).1 u).partner ≠ 0 →
      ((matchLoop us m f).1 u).gender ≠ none) := by
  intro m
  induction m with
  | nil =>
    intro f us h1 _hm hf h2
    rw [matchLoop_nil_left]
    exact ⟨h1, by simp, hf, h2⟩
  | cons a mt ih =>
    intro f us h1 hm hf h2
    cases f with
    | nil =>
      rw [matchLoop_nil_right]
      exact ⟨h1, hm, by simp, h2⟩
    | cons b ft =>
      rw [matchLoop_cons]
      have h1' : ∀ u : Int, ((pairUp us a b) u).waiting = true →
          ((pairUp us a b) u).partner = 0 := by
        intro u hw
        by_cases hua : u = a
        · subst hua; rw [pairUp_left.1] at hw; cases hw
        · by_cases hub : u = b
          · subst hub; rw [pairUp_right.1] at hw; cases hw
          · rw [pairUp_other hua hub] at hw ⊢; exact h1 u hw
      have hm' : ∀ u ∈ mt, ((pairUp us a b) u).gender ≠ none := by
        intro u hu; rw [pairUp_gender]
        exact hm u (List.mem_cons_of_mem a hu)
      have hf' : ∀ u ∈ ft, ((pairUp us a b) u).gender ≠ none := by
        intro u hu; rw [pairUp_gender]
        exact hf u (List.mem_cons_of_mem b hu)
      have h2' : ∀ u : Int, ((pairUp us a b) u).partner ≠ 0 →
          ((pairUp us a b) u).gender ≠ none := by
        intro u hp
        rw [pairUp_gender]
        by_cases hua : u = a
        · subst hua; exact hm u (List.mem_cons_self u mt)
        · by_cases hub : u = b
          · subst hub; exact hf u (List.mem_cons_self u ft)
          · rw [pairUp_other hua hub] at hp; exact h2 u hp
      exact ih ft (pairUp us a b) h1' hm' hf' h2'

theorem inv_matchUsers {b : BotState} (h : Inv b) : Inv (matchUsers b).1 := by
  obtain ⟨h1, hm, hf, h2⟩ := h
  have := matchLoop_inv b.maleQueue b.femaleQueue b.users h1 hm hf h2
  exact this

theorem inv_initState : Inv initState := by
  refine ⟨?_, ?_, ?_, ?_⟩ <;> intro u h <;>
    simp [initState, UserState.fresh] at h ⊢

theorem inv_setGender {b : BotState} (h : Inv b) (userID : Int)
    (g : Gender) : Inv (setGender b userID g).1 := by
  obtain ⟨h1, hm, hf, h2⟩ := h
  refine ⟨?_, ?_, ?_, ?_⟩
  · intro u hw
    simp only [setGender, setUser] at hw ⊢
    by_cases hu : u = userID
    · simp only [hu, if_pos rfl] at hw ⊢; exact h1 userID hw
    · simp only [if_neg hu] at hw ⊢; exact h1 u hw
  · intro u hu
    simp only [setGender, setUser] at hu ⊢
    by_cases huu : u = userID
    · simp [huu]
    · simp only [if_neg huu]; exact hm u hu
  · intro u hu
    simp only [setGender, setUser] at hu ⊢
    by_cases huu : u = userID
    · simp [huu]
    · simp only [if_neg huu]; exact hf u hu
  · intro u hp
    simp only [setGender, setUser] at hp ⊢
    by_cases huu : u = userID
    · simp [huu]
    · simp only [if_neg huu] at hp ⊢; exact h2 u hp

theorem enqueueSelf_users (b : BotState) (userID : Int) :
    (enqueueSelf b userID).users =
      setUser b.users userID (fun s => { s with waiting := true }) := by
  unfold enqueueSelf
  split_ifs <;> rfl

theorem enqueueSelf_users_gender (b : BotState) (userID u : Int) :
    ((enqueueSelf b userID).users u).gender = (b.users u).gender := by
  rw [enqueueSelf_users]
  simp only [setUser]
  split_ifs <;> rfl

theorem enqueueSelf_users_partner (b : BotState) (userID u : Int) :
    ((enqueueSelf b userID).users u).partner = (b.users u).partner := by
  rw [enqueueSelf_users]
  simp only [setUser]
  split_ifs <;> rfl

theorem inv_enqueueSelf {b : BotState} (h : Inv b) {userID : Int}
    (hg : (b.users userID).gender ≠ none)
    (hp : (b.users userID).partner = 0) : Inv (enqueueSelf b userID) := by
  obtain ⟨h1, hm, hf, h2⟩ := h
  refine ⟨?_, ?_, ?_, ?_⟩
  · intro u hw
    rw [enqueueSelf_users_partner]
    rw [enqueueSelf_users] at hw
    simp only [setUser] at hw
    by_cases hu : u = userID
    · rw [hu]; exact hp
    · rw [if_neg hu] at hw; exact h1 u hw
  · intro u hu
    rw [enqueueSelf_users_gender]
    unfold enqueueSelf at hu
    split_ifs at hu with hgm
    · rcases List.mem_append.1 hu with hu | hu
      · exact hm u hu
      · rcases List.mem_singleton.1 hu with rfl; exact hg
    · exact hm u hu
  · intro u hu
    rw [enqueueSelf_users_gender]
    unfold enqueueSelf at hu
    split_ifs at hu with hgm
    · exact hf u hu
    · rcases List.mem_append.1 hu with hu | hu
      · exact hf u hu
      · rcases List.mem_singleton.1 hu with rfl; exact hg
  · intro u hpp
    rw [enqueueSelf_users_gender]
    rw [enqueueSelf_users_partner] at hpp
    exact h2 u hpp

theorem startChat_success {b : BotState} {userID : Int}
    (hg : (b.users userID).gender ≠ none)
    (hp : (b.users userID).partner = 0) :
    startChat b userID =
      ((matchUsers (enqueueSelf b userID)).1,
        (userID, Msg.searching) :: (matchUsers (enqueueSelf b userID)).2) := by
  simp [startChat, hg, hp]

theorem inv_startChat {b : BotState} (h : Inv b) (userID : Int) :
    Inv (startChat b userID).1 := by
  by_cases hg : (b.users userID).gender = none
  · simpa [startChat, hg] using h
  · by_cases hp : (b.users userID).partner = 0
    · rw [startChat_success hg hp]
      exact inv_matchUsers (inv_enqueueSelf h hg hp)
    · simpa [startChat, hg, hp] using h

theorem inv_removeFromQueue {b : BotState} (h : Inv b) (userID : Int) :
    Inv (removeFromQueue b userID) := by
  obtain ⟨h1, hm, hf, h2⟩ := h
  unfold removeFromQueue
  split_ifs with hmem
  · exact ⟨h1, fun u hu => hm u (List.mem_of_mem_erase hu), hf, h2⟩
  · exact ⟨h1, hm, fun u hu => hf u (List.mem_of_mem_erase hu), h2⟩

theorem clearPair_users_gender (b : BotState) (userID u : Int) :
    ((clearPair b userID).users u).gender = (b.users u).gender := by
  simp only [clearPair, setUser]
  split_ifs <;> rfl

theorem clearPair_users_waiting (b : BotState) (userID u : Int) :
    ((clearPair b userID).users u).waiting = (b.users u).waiting := by
  simp only [clearPair, setUser]
  split_ifs <;> rfl

theorem clearPair_users_partner (b : BotState) (userID u : Int) :
    ((clearPair b userID).users u).partner = 0 ∨
      ((clearPair b userID).users u).partner = (b.users u).partner := by
  simp only [clearPair, setUser]
  split_ifs <;> simp

theorem clearPair_queues (b : BotState) (userID : Int) :
    (clearPair b userID).maleQueue = b.maleQueue ∧
      (clearPair b userID).femaleQueue = b.femaleQueue := ⟨rfl, rfl⟩

theorem inv_clearPair {b : BotState} (h : Inv b) (userID : Int) :
    Inv (clearPair b userID) := by
  obtain ⟨h1, hm, hf, h2⟩ := h
  refine ⟨?_, ?_, ?_, ?_⟩
  · intro u hw
    rw [clearPair_users_waiting] at hw
    rcases clearPair_users_partner b userID u with hp | hp
    · exact hp
    · rw [hp]; exact h1 u hw
  · intro u hu
    rw [clearPair_users_gender]
    exact hm u ((clearPair_queues b userID).1 ▸ hu)
  · intro u hu
    rw [clearPair_users_gender]
    exact hf u ((clearPair_queues b userID).2 ▸ hu)
  · intro u hpp
    rw [clearPair_users_gender]
    rcases clearPair_users_partner b userID u with hp | hp
    · exact absurd hp hpp
    · rw [hp] at hpp; exact h2 u hpp

theorem stopChat_success {b : BotState} {userID : Int}
    (hp : (b.users userID).partner ≠ 0) :
    stopChat b userID =
      (removeFromQueue (removeFromQueue (clearPair b userID) userID)
          (b.users userID).partner,
        [(userID, Msg.chatEnded),
         ((b.users userID).partner, Msg.partnerLeft)]) := by
  simp [stopChat, hp]

theorem inv_stopChat {b : BotState} (h : Inv b) (userID : Int) :
    Inv (stopChat b userID).1 := by
  by_cases hp : (b.users userID).partner = 0
  · simpa [stopChat, hp] using h
  · rw [stopChat_success hp]
    exact inv_removeFromQueue
      (inv_removeFromQueue (inv_clearPair h userID) userID) _

theorem inv_forwardMessage {b : BotState} (h : Inv b) (userID : Int)
    (t : String) : Inv (forwardMessage b userID t).1 := by
  by_cases hp : (b.users userID).partner = 0 <;>
    simpa [forwardMessage, hp] using h

theorem inv_nextPartner {b : BotState} (h : Inv b) (userID : Int) :
    Inv (nextPartner b userID).1 :=
  inv_startChat (inv_stopChat h userID) userID

theorem inv_step {b : BotState} (h : Inv b) (e : Event) : Inv (step b e).1 := by
  cases e with
  | declareCategory userID g => exact inv_setGender h userID g
  | startSearch userID => exact inv_startChat h userID
  | endSession userID => exact inv_stopChat h userID
  | next userID => exact inv_nextPartner h userID
  | relay userID t => exact inv_forwardMessage h userID t
  | tryMatchAll => exact inv_matchUsers h

theorem inv_reachable {s : BotState} (h : Reachable s) : Inv s := by
  induction h with
  | base => exact inv_initState
  | more e _ ih => exact inv_step ih e

/-! ### Further pointwise helper lemmas -/

theorem matchUsers_nil_male {b : BotState} (hm : b.maleQueue = []) :
    matchUsers b = (b, []) := by
  have h1 : matchLoop b.users b.maleQueue b.femaleQueue =
      (b.users, b.maleQueue, b.femaleQueue, []) := by
    rw [hm, matchLoop_nil_left]
  simp only [matchUsers, h1]

theorem matchUsers_nil_female {b : BotState} (hf : b.femaleQueue = []) :
    matchUsers b = (b, []) := by
  have h1 : matchLoop b.users b.maleQueue b.femaleQueue =
      (b.users, b.maleQueue, b.femaleQueue, []) := by
    rw [hf, matchLoop_nil_right]
  simp only [matchUsers, h1]

theorem pairUp_eq_left {us : Int → UserState} {a c : Int} (h : a ≠ c) :
    pairUp us a c a = { us a with partner := c, waiting := false } := by
  simp [pairUp, setUser, h]

theorem pairUp_eq_right {us : Int → UserState} {a c : Int} (h : a ≠ c) :
    pairUp us a c c = { us c with partner := a, waiting := false } := by
  simp [pairUp, setUser, h, Ne.symm h]

theorem enqueueSelf_self (b : BotState) (userID : Int) :
    (enqueueSelf b userID).users userID =
      { b.users userID with waiting := true } := by
  rw [enqueueSelf_users]; simp [setUser]

theorem enqueueSelf_other {b : BotState} {userID u : Int} (h : u ≠ userID) :
    (enqueueSelf b userID).users u = b.users u := by
  rw [enqueueSelf_users]; simp [setUser, h]

theorem enqueueSelf_queues_male {b : BotState} {userID : Int}
    (h : (b.users userID).gender = some Gender.male) :
    (enqueueSelf b userID).maleQueue = b.maleQueue ++ [userID] ∧
      (enqueueSelf b userID).femaleQueue = b.femaleQueue := by
  unfold enqueueSelf; rw [if_pos h]; exact ⟨rfl, rfl⟩

theorem enqueueSelf_queues_female {b : BotState} {userID : Int}
    (h : ¬(b.users userID).gender = some Gender.male) :
    (enqueueSelf b userID).maleQueue = b.maleQueue ∧
      (enqueueSelf b userID).femaleQueue = b.femaleQueue ++ [userID] := by
  unfold enqueueSelf; rw [if_neg h]; exact ⟨rfl, rfl⟩

theorem clearPair_self {b : BotState} {userID : Int}
    (h : userID ≠ (b.users userID).partner) :
    (clearPair b userID).users userID =
      { b.users userID with partner := 0 } := by
  simp [clearPair, setUser, h]

theorem clearPair_partnerOf (b : BotState) (userID : Int) :
    (clearPair b userID).users ((b.users userID).partner) =
      { b.users ((b.users userID).partner) with partner := 0 } := by
  simp only [clearPair, setUser, if_pos]
  split_ifs <;> rfl

theorem clearPair_other {b : BotState} {userID u : Int}
    (h1 : u ≠ userID) (h2 : u ≠ (b.users userID).partner) :
    (clearPair b userID).users u = b.users u := by
  simp [clearPair, setUser, h1, h2]

theorem removeFromQueue_not_mem {b : BotState} {userID : Int}
    (hm : userID ∉ b.maleQueue) (hf : userID ∉ b.femaleQueue) :
    removeFromQueue b userID = b := by
  unfold removeFromQueue
  rw [if_neg hm, List.erase_of_not_mem hf]

theorem matchUsers_cons {b : BotState} {a c : Int} {mt ft : List Int}
    (hm : b.maleQueue = a :: mt) (hf : b.femaleQueue = c :: ft) :
    matchUsers b =
      ((matchUsers ⟨pairUp b.users a c, mt, ft⟩).1,
        (a, Msg.matched) :: (c, Msg.matched) ::
          (matchUsers ⟨pairUp b.users a c, mt, ft⟩).2) := by
  simp only [matchUsers, hm, hf, matchLoop_cons]

theorem matchUsers_mk_nil_female (us : Int → UserState) (m : List Int) :
    matchUsers ⟨us, m, []⟩ = (⟨us, m, []⟩, []) :=
  matchUsers_nil_female rfl

theorem startChat_noGender {s : BotState} {u : Int}
    (hg : (s.users u).gender = none) :
    startChat s u = (s, [(u, Msg.noGender)]) := by
  simp [startChat, hg]

theorem startChat_already {s : BotState} {u : Int}
    (hg : (s.users u).gender ≠ none) (hp : (s.users u).partner ≠ 0) :
    startChat s u = (s, [(u, Msg.alreadyInChat)]) := by
  simp [startChat, hg, hp]

/-! ### Claim theorems -/

/-- C1: partner symmetry fails on a reachable state. Running the event
trace `c1Trace` from the initial state reaches a state in which user 2's
partner field is 1 while user 1's partner field is 3, not 2; the partner
relation is not self-inverse there. -/
theorem partner_symmetry_fails_on_reachable_state :
    Reachable (runEvents initState c1Trace) ∧
    ((runEvents initState c1Trace).users 2).partner = 1 ∧
    ((runEvents initState c1Trace).users 1).partner = 3 ∧
    ((runEvents initState c1Trace).users 1).partner ≠ 2 := by
  refine ⟨reachable_runEvents c1Trace initState Reachable.base, ?_, ?_, ?_⟩ <;>
    decide

/-- C2: queue uniqueness fails on a reachable state. After
`declareCategory 1 male; startSearch 1; startSearch 1` the male queue is
`[1, 1]`: `startChat` has no already-waiting guard, so the second
`startSearch` enqueues user 1 a second time. -/
theorem queue_uniqueness_fails_on_reachable_state :
    Reachable (runEvents initState c2Trace) ∧
    (runEvents initState c2Trace).maleQueue = [1, 1] ∧
    ((runEvents initState c2Trace).users 1).waiting = true := by
  refine ⟨reachable_runEvents c2Trace initState Reachable.base, ?_, ?_⟩ <;>
    decide

/-- C4: in every reachable state, `waiting` and a non-zero `partner` are
mutually exclusive: a waiting user has partner `0`, and a user with a
non-zero partner is not waiting. -/
theorem waiting_paired_mutually_exclusive {s : BotState}
    (h : Reachable s) (u : Int) :
    ((s.users u).waiting = true → (s.users u).partner = 0) ∧
    ((s.users u).partner ≠ 0 → (s.users u).waiting = false) := by
  have hInv := inv_reachable h
  refine ⟨hInv.1 u, ?_⟩
  intro hp
  cases hw : (s.users u).waiting with
  | false => rfl
  | true => exact absurd (hInv.1 u hw) hp

/-- Witness for C4 at the reachable state `waitState`, where user 1 is
waiting: the theorem applies and yields partner `0`. -/
theorem waiting_paired_mutually_exclusive_witness :
    (waitState.users 1).waiting = true ∧ (waitState.users 1).partner = 0 :=
  ⟨by decide,
    (waiting_paired_mutually_exclusive
      (reachable_runEvents _ initState Reachable.base) 1).1 (by decide)⟩

/-- C3 counterexample: `matchUsers` performs no already-paired
verification. In `c3State` (the matching-engine call state produced
inside `startSearch 3` on the trace `c1Trace`) the dequeued male head,
user 1, is already paired with user 2, yet `matchUsers` overwrites its
partner field with 3 and emits a matched notification to it, leaving user
2 with a dangling partner pointer. -/
theorem tryMatchAll_pairs_already_paired_head :
    (c3State.users 1).partner = 2 ∧ (c3State.users 1).partner ≠ 0 ∧
    ((matchUsers c3State).1.users 1).partner = 3 ∧
    ((matchUsers c3State).1.users 2).partner = 1 ∧
    (matchUsers c3State).2 = [(1, Msg.matched), (3, Msg.matched)] := by
  refine ⟨?_, ?_, ?_, ?_, ?_⟩ <;> decide

/-- C3 amended: `tryMatchAll` pairs opposite-category queue heads by
repeatedly dequeuing one head from each non-empty queue and
unconditionally — with no already-paired verification — setting each
other's partner field, clearing `waiting` on both, and emitting a matched
notification to each; it stops as soon as either queue is empty. -/
theorem tryMatchAll_pairs_heads_unconditionally (b : BotState) :
    (b.maleQueue = [] → matchUsers b = (b, [])) ∧
    (b.femaleQueue = [] → matchUsers b = (b, [])) ∧
    (∀ (a c : Int) (mt ft : List Int),
      b.maleQueue = a :: mt → b.femaleQueue = c :: ft →
      matchUsers b =
        ((matchUsers ⟨pairUp b.users a c, mt, ft⟩).1,
          (a, Msg.matched) :: (c, Msg.matched) ::
            (matchUsers ⟨pairUp b.users a c, mt, ft⟩).2)) ∧
    (∀ (us : Int → UserState) (a c : Int), a ≠ c →
      pairUp us a c a = { us a with partner := c, waiting := false } ∧
      pairUp us a c c = { us c with partner := a, waiting := false }) := by
  refine ⟨matchUsers_nil_male, matchUsers_nil_female, ?_, ?_⟩
  · intro a c mt ft hm hf
    exact matchUsers_cons hm hf
  · intro us a c h
    exact ⟨pairUp_eq_left h, pairUp_eq_right h⟩

/-- Witness for the amended C3 at `c3State`: its queues are `[1]` and
`[3]`, so the head-pairing equation applies with `a = 1`, `c = 3` and
empty tails. -/
theorem tryMatchAll_pairs_heads_unconditionally_witness :
    matchUsers c3State =
      ((matchUsers ⟨pairUp c3State.users 1 3, [], []⟩).1,
        (1, Msg.matched) :: (3, Msg.matched) ::
          (matchUsers ⟨pairUp c3State.users 1 3, [], []⟩).2) :=
  (tryMatchAll_pairs_heads_unconditionally c3State).2.2.1 1 3 [] [] rfl rfl

/-- C5: matching is FIFO within a category. If the male queue is
`[u1, u2, u3]` and a single female user `v` starts searching, only `u1`
is paired (with `v`); `u2` and `u3` stay waiting, in their original
order, with their states untouched; `v` is notified "searching" and both
matched parties get a matched notification. -/
theorem fifo_single_opposite_arrival {s : BotState} {u1 u2 u3 v : Int}
    (hmq : s.maleQueue = [u1, u2, u3]) (hfq : s.femaleQueue = [])
    (hvg : (s.users v).gender = some Gender.female)
    (hvp : (s.users v).partner = 0)
    (h1v : u1 ≠ v) (h2v : u2 ≠ v) (h3v : u3 ≠ v)
    (h21 : u2 ≠ u1) (h31 : u3 ≠ u1)
    (hw2 : (s.users u2).waiting = true) (hw3 : (s.users u3).waiting = true) :
    (startChat s v).1.maleQueue = [u2, u3] ∧
    (startChat s v).1.femaleQueue = [] ∧
    ((startChat s v).1.users u1).partner = v ∧
    ((startChat s v).1.users v).partner = u1 ∧
    ((startChat s v).1.users u1).waiting = false ∧
    ((startChat s v).1.users v).waiting = false ∧
    ((startChat s v).1.users u2).waiting = true ∧
    ((startChat s v).1.users u3).waiting = true ∧
    ((startChat s v).1.users u2).partner = (s.users u2).partner ∧
    ((startChat s v).1.users u3).partner = (s.users u3).partner ∧
    (startChat s v).2 =
      [(v, Msg.searching), (u1, Msg.matched), (v, Msg.matched)] := by
  have hvg' : (s.users v).gender ≠ none := by simp [hvg]
  have hmale : ¬(s.users v).gender = some Gender.male := by simp [hvg]
  have hq := enqueueSelf_queues_female hmale
  have hqm : (enqueueSelf s v).maleQueue = u1 :: [u2, u3] := by
    rw [hq.1, hmq]
  have hqf : (enqueueSelf s v).femaleQueue = v :: [] := by
    rw [hq.2, hfq]; rfl
  rw [startChat_success hvg' hvp, matchUsers_cons hqm hqf,
    matchUsers_mk_nil_female]
  refine ⟨rfl, rfl, ?_, ?_, ?_, ?_, ?_, ?_, ?_, ?_, rfl⟩
  · show (pairUp (enqueueSelf s v).users u1 v u1).partner = v
    rw [pairUp_eq_left h1v]
  · show (pairUp (enqueueSelf s v).users u1 v v).partner = u1
    rw [pairUp_eq_right h1v]
  · show (pairUp (enqueueSelf s v).users u1 v u1).waiting = false
    rw [pairUp_eq_left h1v]
  · show (pairUp (enqueueSelf s v).users u1 v v).waiting = false
    rw [pairUp_eq_right h1v]
  · show (pairUp (enqueueSelf s v).users u1 v u2).waiting = true
    rw [pairUp_other h21 h2v, enqueueSelf_other h2v]
    exact hw2
  · show (pairUp (enqueueSelf s v).users u1 v u3).waiting = true
    rw [pairUp_other h31 h3v, enqueueSelf_other h3v]
    exact hw3
  · show (pairUp (enqueueSelf s v).users u1 v u2).partner =
      (s.users u2).partner
    rw [pairUp_other h21 h2v, enqueueSelf_other h2v]
  · show (pairUp (enqueueSelf s v).users u1 v u3).partner =
      (s.users u3).partner
    rw [pairUp_other h31 h3v, enqueueSelf_other h3v]

/-- Witness for C5 at `fifoState` with male queue `[1, 2, 3]` and female
arrival 4: only user 1 pairs with 4; users 2 and 3 stay waiting. -/
theorem fifo_single_opposite_arrival_witness :
    (startChat fifoState 4).1.maleQueue = [2, 3] ∧
    ((startChat fifoState 4).1.users 1).partner = 4 ∧
    ((startChat fifoState 4).1.users 4).partner = 1 ∧
    ((startChat fifoState 4).1.users 2).waiting = true ∧
    ((startChat fifoState 4).1.users 3).waiting = true := by
  have h := @fifo_single_opposite_arrival fifoState 1 2 3 4
    (by decide) (by decide) (by decide) (by decide) (by decide) (by decide)
    (by decide) (by decide) (by decide) (by decide) (by decide)
  exact ⟨h.1, h.2.2.1, h.2.2.2.1, h.2.2.2.2.2.2.1, h.2.2.2.2.2.2.2.1⟩

/-- C6: over every reachable state, `startSearch` fails with the
no-category error exactly when the caller's gender is unset, fails with
the already-in-session error exactly when the caller's partner is
non-zero (both failures leave the state unchanged and notify only the
caller), and otherwise enqueues the caller with `waiting` set, notifies
"searching", and invokes the matching engine. -/
theorem startSearch_error_characterisation {s : BotState}
    (h : Reachable s) (u : Int) :
    (startChat s u = (s, [(u, Msg.noGender)]) ↔
      (s.users u).gender = none) ∧
    (startChat s u = (s, [(u, Msg.alreadyInChat)]) ↔
      (s.users u).partner ≠ 0) ∧
    ((s.users u).gender ≠ none → (s.users u).partner = 0 →
      startChat s u = ((matchUsers (enqueueSelf s u)).1,
        (u, Msg.searching) :: (matchUsers (enqueueSelf s u)).2)) := by
  refine ⟨⟨?_, startChat_noGender⟩, ⟨?_, ?_⟩,
    fun hg hp => startChat_success hg hp⟩
  · intro he
    by_cases hg : (s.users u).gender = none
    · exact hg
    · by_cases hp : (s.users u).partner = 0
      · rw [startChat_success hg hp] at he
        have h2 := congrArg Prod.snd he
        simp at h2
      · rw [startChat_already hg hp] at he
        have h2 := congrArg Prod.snd he
        simp at h2
  · intro he
    by_cases hg : (s.users u).gender = none
    · rw [startChat_noGender hg] at he
      have h2 := congrArg Prod.snd he
      simp at h2
    · by_cases hp : (s.users u).partner = 0
      · rw [startChat_success hg hp] at he
        have h2 := congrArg Prod.snd he
        simp at h2
      · exact hp
  · intro hp
    exact startChat_already ((inv_reachable h).2.2.2 u hp) hp

/-- Witness for C6 at two reachable states: in the initial state user 1
has no gender, so `startSearch` reports the no-category error; in
`pairState` user 1 is paired with 2, so it reports already-in-session. -/
theorem startSearch_error_characterisation_witness :
    startChat initState 1 = (initState, [(1, Msg.noGender)]) ∧
    startChat pairState 1 = (pairState, [(1, Msg.alreadyInChat)]) :=
  ⟨(startSearch_error_characterisation Reachable.base 1).1.2 rfl,
   (startSearch_error_characterisation
      (reachable_runEvents _ initState Reachable.base) 1).2.1.2 (by decide)⟩

/-- C7: every user-facing failure leaves the whole state (the caller's
state, every other user's state and both queues) unchanged and only
notifies the caller: `endSession` with no partner, `startSearch` with no
category or while paired, and `relay` with no partner. -/
theorem failures_leave_state_unchanged (s : BotState) (u : Int)
    (t : String) :
    ((s.users u).partner = 0 → stopChat s u = (s, [(u, Msg.notInChat)])) ∧
    ((s.users u).gender = none →
      startChat s u = (s, [(u, Msg.noGender)])) ∧
    ((s.users u).gender ≠ none → (s.users u).partner ≠ 0 →
      startChat s u = (s, [(u, Msg.alreadyInChat)])) ∧
    ((s.users u).partner = 0 →
      forwardMessage s u t = (s, [(u, Msg.notInChatRelay)])) := by
  refine ⟨?_, startChat_noGender, fun hg hp => startChat_already hg hp, ?_⟩
  · intro hp; simp [stopChat, hp]
  · intro hp; simp [forwardMessage, hp]

/-- Witness for C7: concrete failures of `endSession`, `startSearch` and
`relay` at the initial state and at `pairState`, all leaving the state
unchanged. -/
theorem failures_leave_state_unchanged_witness :
    stopChat initState 1 = (initState, [(1, Msg.notInChat)]) ∧
    startChat initState 1 = (initState, [(1, Msg.noGender)]) ∧
    startChat pairState 1 = (pairState, [(1, Msg.alreadyInChat)]) ∧
    forwardMessage initState 1 "hi" =
      (initState, [(1, Msg.notInChatRelay)]) :=
  ⟨(failures_leave_state_unchanged initState 1 "hi").1 rfl,
   (failures_leave_state_unchanged initState 1 "hi").2.1 rfl,
   (failures_leave_state_unchanged pairState 1 "hi").2.2.1
     (by decide) (by decide),
   (failures_leave_state_unchanged initState 1 "hi").2.2.2 rfl⟩

/-- C8: `relay` performs no state transition; a paired sender's text is
forwarded verbatim to the partner and to no one else, and a sender with
no partner only gets the not-in-session notification. -/
theorem relay_no_state_transition (s : BotState) (u : Int) (t : String) :
    (forwardMessage s u t).1 = s ∧
    ((s.users u).partner ≠ 0 →
      (forwardMessage s u t).2 = [((s.users u).partner, Msg.text t)]) ∧
    ((s.users u).partner = 0 →
      (forwardMessage s u t).2 = [(u, Msg.notInChatRelay)]) := by
  by_cases hp : (s.users u).partner = 0 <;> simp [forwardMessage, hp]

/-- Witness for C8 at `pairState` (user 1 paired with 2, text forwarded)
and at the initial state (user 7 unpaired, notified). -/
theorem relay_no_state_transition_witness :
    (forwardMessage pairState 1 "hi").1 = pairState ∧
    (forwardMessage pairState 1 "hi").2 =
      [((pairState.users 1).partner, Msg.text "hi")] ∧
    (forwardMessage initState 7 "hi").2 = [(7, Msg.notInChatRelay)] :=
  ⟨(relay_no_state_transition pairState 1 "hi").1,
   (relay_no_state_transition pairState 1 "hi").2.1 (by decide),
   (relay_no_state_transition initState 7 "hi").2.2 rfl⟩

/-- C9: `nextPartner` is exactly `endSession` followed by `startSearch`;
when the caller is not in a session the end-session failure does not
stop the composite — `startSearch` still runs (the caller does receive
the not-in-chat notification first); and in the scenario where `x`
(male) is paired with `y`, neither is enqueued and no opposite-category
candidate waits, `nextPartner x` leaves `y` idle with partner cleared
and notified of termination, while `x` ends waiting, enqueued at the
tail of the male queue. -/
theorem nextPartner_stop_then_start {s : BotState} {x y : Int}
    (hxy : (s.users x).partner = y) (hy0 : y ≠ 0) (hxney : x ≠ y)
    (hxg : (s.users x).gender = some Gender.male)
    (hyw : (s.users y).waiting = false)
    (hxm : x ∉ s.maleQueue) (hxf : x ∉ s.femaleQueue)
    (hym : y ∉ s.maleQueue) (hyf : y ∉ s.femaleQueue)
    (hfq : s.femaleQueue = []) :
    (∀ (b : BotState) (u : Int), nextPartner b u =
      ((startChat (stopChat b u).1 u).1,
        (stopChat b u).2 ++ (startChat (stopChat b u).1 u).2)) ∧
    (∀ (b : BotState) (u : Int), (b.users u).partner = 0 →
      nextPartner b u =
        ((startChat b u).1, (u, Msg.notInChat) :: (startChat b u).2)) ∧
    (nextPartner s x).1.maleQueue = s.maleQueue ++ [x] ∧
    (nextPartner s x).1.femaleQueue = [] ∧
    ((nextPartner s x).1.users x).partner = 0 ∧
    ((nextPartner s x).1.users x).waiting = true ∧
    ((nextPartner s x).1.users y).partner = 0 ∧
    ((nextPartner s x).1.users y).waiting = false ∧
    (nextPartner s x).2 =
      [(x, Msg.chatEnded), (y, Msg.partnerLeft), (x, Msg.searching)] := by
  have hpx : (s.users x).partner ≠ 0 := by rw [hxy]; exact hy0
  have hstop : stopChat s x =
      (clearPair s x, [(x, Msg.chatEnded), (y, Msg.partnerLeft)]) := by
    rw [stopChat_success hpx, hxy,
      @removeFromQueue_not_mem (clearPair s x) x hxm hxf,
      @removeFromQueue_not_mem (clearPair s x) y hym hyf]
  have hs1x : (clearPair s x).users x = { s.users x with partner := 0 } :=
    clearPair_self (by rw [hxy]; exact hxney)
  have hs1y : (clearPair s x).users y = { s.users y with partner := 0 } := by
    have h0 := clearPair_partnerOf s x
    rw [hxy] at h0
    exact h0
  have hgmale1 : ((clearPair s x).users x).gender = some Gender.male := by
    rw [hs1x]; exact hxg
  have hg1 : ((clearPair s x).users x).gender ≠ none := by
    rw [hgmale1]; simp
  have hp1 : ((clearPair s x).users x).partner = 0 := by rw [hs1x]
  have hqE := enqueueSelf_queues_male hgmale1
  have hEf : (enqueueSelf (clearPair s x) x).femaleQueue = [] := by
    rw [hqE.2]; exact hfq
  have hmu : matchUsers (enqueueSelf (clearPair s x) x) =
      (enqueueSelf (clearPair s x) x, []) := matchUsers_nil_female hEf
  have hstart : startChat (clearPair s x) x =
      (enqueueSelf (clearPair s x) x, [(x, Msg.searching)]) := by
    rw [startChat_success hg1 hp1, hmu]
  have hnext : nextPartner s x = (enqueueSelf (clearPair s x) x,
      [(x, Msg.chatEnded), (y, Msg.partnerLeft), (x, Msg.searching)]) := by
    show ((startChat (stopChat s x).1 x).1,
      (stopChat s x).2 ++ (startChat (stopChat s x).1 x).2) = _
    rw [hstop]
    dsimp only
    rw [hstart]
    rfl
  refine ⟨fun b u => rfl, ?_, ?_, ?_, ?_, ?_, ?_, ?_, ?_⟩
  · intro b u hbp
    have hbs : stopChat b u = (b, [(u, Msg.notInChat)]) := by
      simp [stopChat, hbp]
    show ((startChat (stopChat b u).1 u).1,
      (stopChat b u).2 ++ (startChat (stopChat b u).1 u).2) = _
    rw [hbs]
    rfl
  · rw [hnext]; exact hqE.1
  · rw [hnext]; exact hEf
  · show ((nextPartner s x).1.users x).partner = 0
    rw [hnext]
    show ((enqueueSelf (clearPair s x) x).users x).partner = 0
    rw [enqueueSelf_self]
    exact hp1
  · rw [hnext]
    show ((enqueueSelf (clearPair s x) x).users x).waiting = true
    rw [enqueueSelf_self]
  · rw [hnext]
    show ((enqueueSelf (clearPair s x) x).users y).partner = 0
    rw [enqueueSelf_other (Ne.symm hxney), hs1y]
  · rw [hnext]
    show ((enqueueSelf (clearPair s x) x).users y).waiting = false
    rw [enqueueSelf_other (Ne.symm hxney), hs1y]
    exact hyw
  · rw [hnext]

/-- Witness for C9 at `pairState`: user 1 (male, paired with 2) calls
next; 2 ends idle and unpaired, 1 ends waiting in the male queue. -/
theorem nextPartner_stop_then_start_witness :
    (nextPartner pairState 1).1.maleQueue = pairState.maleQueue ++ [1] ∧
    ((nextPartner pairState 1).1.users 1).waiting = true ∧
    ((nextPartner pairState 1).1.users 1).partner = 0 ∧
    ((nextPartner pairState 1).1.users 2).partner = 0 ∧
    ((nextPartner pairState 1).1.users 2).waiting = false ∧
    (nextPartner pairState 1).2 =
      [(1, Msg.chatEnded), (2, Msg.partnerLeft), (1, Msg.searching)] := by
  have h := @nextPartner_stop_then_start pairState 1 2
    (by decide) (by decide) (by decide) (by decide) (by decide)
    (by decide) (by decide) (by decide) (by decide) (by decide)
  exact ⟨h.2.2.1, h.2.2.2.2.2.1, h.2.2.2.2.1, h.2.2.2.2.2.2.1,
    h.2.2.2.2.2.2.2.1, h.2.2.2.2.2.2.2.2⟩

/-- C10: `declareCategory` succeeds in every state and mutates only the
caller's gender field: the caller's partner and waiting, both queues and
every other user's state are unchanged, so a user enqueued in one
category's queue who re-declares the other category stays enqueued in
the original queue. -/
theorem declareCategory_frame (s : BotState) (u : Int) (g : Gender) :
    (setGender s u g).1.maleQueue = s.maleQueue ∧
    (setGender s u g).1.femaleQueue = s.femaleQueue ∧
    ((setGender s u g).1.users u).gender = some g ∧
    ((setGender s u g).1.users u).partner = (s.users u).partner ∧
    ((setGender s u g).1.users u).waiting = (s.users u).waiting ∧
    (∀ v : Int, v ≠ u → (setGender s u g).1.users v = s.users v) ∧
    (setGender s u g).2 = [(u, Msg.genderChosen g)] ∧
    (u ∈ s.maleQueue → u ∈ (setGender s u g).1.maleQueue) ∧
    (u ∈ s.femaleQueue → u ∈ (setGender s u g).1.femaleQueue) := by
  refine ⟨rfl, rfl, ?_, ?_, ?_, ?_, rfl, fun hm => hm, fun hf => hf⟩
  · simp [setGender, setUser]
  · simp [setGender, setUser]
  · simp [setGender, setUser]
  · intro v hv
    simp [setGender, setUser, hv]

/-- Witness for C10 at `waitState`: user 1, waiting in the male queue,
re-declares female; the gender changes but user 1 stays in the male
queue and user 2's state is untouched. -/
theorem declareCategory_frame_witness :
    ((setGender waitState 1 Gender.female).1.users 1).gender =
      some Gender.female ∧
    (setGender waitState 1 Gender.female).1.maleQueue =
      waitState.maleQueue ∧
    1 ∈ (setGender waitState 1 Gender.female).1.maleQueue ∧
    (setGender waitState 1 Gender.female).1.users 2 = waitState.users 2 := by
  have h := declareCategory_frame waitState 1 Gender.female
  exact ⟨h.2.2.1, h.1, h.2.2.2.2.2.2.2.1 (by decide),
    h.2.2.2.2.2.1 2 (by decide)⟩

end AnonymBot
